import Mathlib

/- Shallow embedding of the construction and per-frame update logic of
   src/main.js from the solar-system-threejs repository.  Machine floats are
   modelled as real numbers.  The randomness source is passed in explicitly:
   each draw stands for one call of Math.random() and is a real number in
   the interval from 0 inclusive to 1 exclusive. -/

namespace SolarSim

noncomputable section

/-- Moon configuration record, an entry of the moons arrays in the planets
    data model (main.js lines 246 to 337). -/
structure MoonData where
  name : String
  radius : ℝ
  distance : ℝ
  speed : ℝ

/-- Planet configuration record from the planets array (main.js lines 246 to
    337).  The tilt is in degrees. -/
structure PlanetData where
  name : String
  radius : ℝ
  distance : ℝ
  speed : ℝ
  tilt : ℝ
  moons : List MoonData

def mercury : PlanetData := ⟨"Mercury", 0.40, 8, 0.02076050, 0.034, []⟩

def venus : PlanetData := ⟨"Venus", 0.95, 12, 0.00812760, 177.3, []⟩

def earth : PlanetData :=
  ⟨"Earth", 1.0, 18, 0.005, 23.5, [⟨"Moon", 0.27, 2.5, 0.015⟩]⟩

def mars : PlanetData :=
  ⟨"Mars", 0.55, 25, 0.00281185, 25.2,
    [⟨"Phobos", 0.03, 1.1, 1.28473354⟩, ⟨"Deimos", 0.02, 1.6, 0.32448931⟩]⟩

def jupiter : PlanetData :=
  ⟨"Jupiter", 5.2, 40, 0.00042144, 3.1,
    [⟨"Io", 0.29, 3.2, 0.02306162⟩, ⟨"Europa", 0.25, 4.5, 0.01155051⟩,
     ⟨"Ganymede", 0.42, 6.5, 0.00322284⟩, ⟨"Callisto", 0.38, 9.0, 0.00134651⟩]⟩

def saturn : PlanetData :=
  ⟨"Saturn", 4.6, 58, 0.00016964, 26.7,
    [⟨"Titan", 0.40, 4.0, 0.00128921⟩, ⟨"Rhea", 0.12, 2.4, 0.00361402⟩]⟩

def uranus : PlanetData :=
  ⟨"Uranus", 2.0, 78, 0.0000595, 97.8,
    [⟨"Titania", 0.125, 2.8, 0.04707443⟩, ⟨"Oberon", 0.12, 4.2, 0.03044121⟩]⟩

def neptune : PlanetData :=
  ⟨"Neptune", 1.95, 98, 0.0000303, 28.3, [⟨"Triton", 0.21, 3.0, 0.06973456⟩]⟩

def planets : List PlanetData :=
  [mercury, venus, earth, mars, jupiter, saturn, uranus, neptune]

/-- Mutable per-moon state: the stored orbit angle userData.orbit.angle and
    the local mesh position (main.js lines 563 to 579). -/
structure MoonState where
  angle : ℝ
  posX : ℝ
  posY : ℝ
  posZ : ℝ

/-- Moon attachment (main.js lines 563 to 579): the mesh is placed at local
    position (distance, 0, 0) and the stored orbit angle starts at
    u * PI * 2 where u is a fresh random draw. -/
def attachMoon (m : MoonData) (u : ℝ) : MoonState :=
  { angle := u * Real.pi * 2, posX := m.distance, posY := 0, posZ := 0 }

/-- Mutable per-planet state: orbitGroup rotation.y, tiltGroup rotation.z and
    the accumulated rotateY self-rotation angle of the planet mesh, plus the
    attached moons. -/
structure PlanetState where
  orbitY : ℝ
  tiltZ : ℝ
  meshY : ℝ
  moons : List (MoonData × MoonState)

/-- buildPlanetWithTilt (main.js lines 508 to 538) followed by the moon
    attachment loop (lines 560 to 581): the tilt is converted from degrees to
    radians once at construction; the orbit rotation and self-rotation start
    at zero; u supplies the random start phase draw for each moon. -/
def buildPlanetState (p : PlanetData) (u : ℕ → ℝ) : PlanetState :=
  { orbitY := 0
    tiltZ := p.tilt * Real.pi / 180
    meshY := 0
    moons := p.moons.enum.map (fun im => (im.2, attachMoon im.2 (u im.1))) }

/-- Per-frame moon update (main.js lines 828 to 837): the stored angle
    advances by speed * dt * t, then x and z are recomputed from the new
    angle; the y coordinate is not touched. -/
def moonStep (dt t : ℝ) (m : MoonData) (st : MoonState) : MoonState :=
  { angle := st.angle + m.speed * dt * t
    posX := Real.sin (st.angle + m.speed * dt * t) * m.distance
    posY := st.posY
    posZ := Real.cos (st.angle + m.speed * dt * t) * m.distance }

/-- Per-frame planet update (main.js lines 817 to 838): rotateY by
    speed * dt * t on the mesh, orbit rotation.y advanced by
    speed * dt * 0.2 * t, every attached moon updated; the tilt group is not
    touched by the render loop. -/
def planetFrameStep (p : PlanetData) (dt t : ℝ) (st : PlanetState) : PlanetState :=
  { orbitY := st.orbitY + p.speed * dt * 0.2 * t
    tiltZ := st.tiltZ
    meshY := st.meshY + p.speed * dt * t
    moons := st.moons.map (fun ms => (ms.1, moonStep dt t ms.1 ms.2)) }

/-- Saturn ring rotation update (main.js line 843): a fixed 0.001 increment
    scaled by the multiplier only.  The frame delta dt is in scope in the
    render loop but is not read by this line. -/
def ringRotStep (dt t rot : ℝ) : ℝ := rot + 0.001 * t

/-- Option record of createAsteroidBelt with its default values (main.js
    lines 384 to 393). -/
structure BeltOptions where
  innerRadius : ℝ := 28
  outerRadius : ℝ := 36
  thickness : ℝ := 2.0
  count : ℕ := 2000
  minScale : ℝ := 0.05
  maxScale : ℝ := 0.25

/-- The options actually passed when the belt is created (main.js lines 713
    to 720). -/
def beltOptionsUsed : BeltOptions :=
  { innerRadius := 28, outerRadius := 33, thickness := 2.0, count := 2000,
    minScale := 0.04, maxScale := 0.18 }

/-- One placed belt instance: local position, uniform scale and the three
    Euler rotation angles. -/
structure BeltInstance where
  posX : ℝ
  posY : ℝ
  posZ : ℝ
  scale : ℝ
  rotX : ℝ
  rotY : ℝ
  rotZ : ℝ

/-- Areal-uniform radius sample (main.js lines 410 and 411):
    sqrt of u * (outer * outer - inner * inner) + inner * inner. -/
def beltSampleRadius (o : BeltOptions) (u : ℝ) : ℝ :=
  Real.sqrt (u * (o.outerRadius * o.outerRadius - o.innerRadius * o.innerRadius) +
    o.innerRadius * o.innerRadius)

/-- One belt instance built from eight fresh random draws (main.js lines 407
    to 426): angle draw, radius draw, eccentricity draw, vertical draw, scale
    draw and three Euler rotation draws. -/
def mkBeltInstance (o : BeltOptions) (uA uR uE uY uS uRx uRy uRz : ℝ) : BeltInstance :=
  { posX := Real.cos (uA * Real.pi * 2) *
      (beltSampleRadius o uR + (uE - 0.5) * (o.outerRadius - o.innerRadius) * 0.03)
    posY := (uY - 0.5) * o.thickness
    posZ := Real.sin (uA * Real.pi * 2) *
      (beltSampleRadius o uR + (uE - 0.5) * (o.outerRadius - o.innerRadius) * 0.03)
    scale := o.minScale + uS * (o.maxScale - o.minScale)
    rotX := uRx * Real.pi
    rotY := uRy * Real.pi
    rotZ := uRz * Real.pi }

/-- Belt group state: the placed instances plus the whole-group rotations.
    rotation.x is set once at creation (main.js line 431) and rotation.y is
    the animated group spin. -/
structure BeltState where
  instances : List BeltInstance
  rotX : ℝ
  rotY : ℝ

/-- Per-frame belt update (main.js line 848): group rotation.y advances by
    0.02 * dt * t; the individual instance matrices are not touched. -/
def beltFrameStep (dt t : ℝ) (b : BeltState) : BeltState :=
  { b with rotY := b.rotY + 0.02 * dt * t }

/-- The panel parameters read by the dust update (main.js lines 852 to 905),
    together with the swarm extent fields captured at creation. -/
structure DustParams where
  timeScale : ℝ
  spaceDustEnabled : Bool
  spaceDustSpeed : ℝ
  spread : ℝ
  near : ℝ
  far : ℝ

/-- Per-instance dust state: camera-local position, scale, spin axis, spin
    speed and accumulated spin angle (main.js lines 459 to 485). -/
structure DustInstance where
  posX : ℝ
  posY : ℝ
  posZ : ℝ
  scale : ℝ
  rotAxisX : ℝ
  rotAxisY : ℝ
  rotAxisZ : ℝ
  rotSpeed : ℝ
  rotAngle : ℝ

/-- Depth advance of one frame (main.js lines 859 and 860):
    timeScale * (spaceDustSpeed or the 0.6 fallback) * dt.  The JavaScript
    expression params.spaceDustSpeed with the or-fallback yields 0.6 whenever
    the configured speed is 0, because 0 is falsy. -/
def dustMove (p : DustParams) (dt : ℝ) : ℝ :=
  p.timeScale * (if p.spaceDustSpeed = 0 then 0.6 else p.spaceDustSpeed) * dt

/-- Per-instance dust update executed when the swarm is enabled (main.js
    lines 863 to 884): advance the depth, respawn past the near bound at the
    far bound with two fresh lateral draws, and advance the spin angle by
    rotSpeed * dt. -/
def dustInstanceStep (p : DustParams) (dt u1 u2 : ℝ) (i : DustInstance) : DustInstance :=
  if i.posZ + dustMove p dt > -p.near then
    { i with posZ := -p.far, posX := (u1 - 0.5) * p.spread,
             posY := (u2 - 0.5) * p.spread,
             rotAngle := i.rotAngle + i.rotSpeed * dt }
  else
    { i with posZ := i.posZ + dustMove p dt,
             rotAngle := i.rotAngle + i.rotSpeed * dt }

/-- Dust update with the enabled gate (main.js lines 855 to 905): when the
    toggle is off the whole per-instance update body is skipped. -/
def dustStep (p : DustParams) (dt u1 u2 : ℝ) (i : DustInstance) : DustInstance :=
  if p.spaceDustEnabled then dustInstanceStep p dt u1 u2 i else i

/-- Quaternion with real components.  The scene graph composes world
    orientation as parent world orientation times local orientation with the
    Hamilton product. -/
structure Quat where
  w : ℝ
  x : ℝ
  y : ℝ
  z : ℝ

def Quat.mul (a b : Quat) : Quat :=
  { w := a.w * b.w - a.x * b.x - a.y * b.y - a.z * b.z
    x := a.w * b.x + a.x * b.w + a.y * b.z - a.z * b.y
    y := a.w * b.y - a.x * b.z + a.y * b.w + a.z * b.x
    z := a.w * b.z + a.x * b.y - a.y * b.x + a.z * b.w }

def Quat.neg (a : Quat) : Quat := ⟨-a.w, -a.x, -a.y, -a.z⟩

/-- Rotation about the Y axis by angle a, as a quaternion. -/
def qAxisY (a : ℝ) : Quat := ⟨Real.cos (a / 2), 0, Real.sin (a / 2), 0⟩

/-- Rotation about the Z axis by angle a, as a quaternion. -/
def qAxisZ (a : ℝ) : Quat := ⟨Real.cos (a / 2), 0, 0, Real.sin (a / 2)⟩

/-- World orientation of the label anchor chain of a planet: orbitGroup
    (rotation.y), then tiltGroup (rotation.z), then the planet mesh
    (accumulated rotateY); the label anchor itself carries no rotation
    (main.js lines 652 to 658). -/
def planetParentQuat (st : PlanetState) : Quat :=
  (qAxisY st.orbitY).mul ((qAxisZ st.tiltZ).mul (qAxisY st.meshY))

/-- World orientation of a label of this planet whose local quaternion is
    lq. -/
def labelWorldQuat (st : PlanetState) (lq : Quat) : Quat :=
  (planetParentQuat st).mul lq

/-- Full billboarding: the label world orientation equals the camera
    orientation as a rotation, that is, equal unit quaternions up to sign. -/
def facesObserverExactly (st : PlanetState) (lq cam : Quat) : Prop :=
  labelWorldQuat st lq = cam ∨ labelWorldQuat st lq = Quat.neg cam

/-- Per-label state: local quaternion, the troika fontSize and visibility. -/
structure LabelState where
  quat : Quat
  fontSize : ℝ
  visible : Bool

/-- Effective wanted label size (main.js line 921): the or-expression with
    0.6 yields the fallback when the configured size is 0, because 0 is
    falsy. -/
def wantLabelSize (labelSize : ℝ) : ℝ := if labelSize = 0 then 0.6 else labelSize

/-- Per-frame label update (main.js lines 907 to 928).  Returns the new
    label state together with whether a glyph resync was requested.  When
    labels are enabled the local quaternion is overwritten with the camera
    quaternion every frame; the stored size is rewritten and a resync
    requested only when the stored size is nonzero (truthy) and differs from
    the wanted size by more than 0.001. -/
def labelStep (labelsEnabled : Bool) (labelSize : ℝ) (cam : Quat) (l : LabelState) :
    LabelState × Bool :=
  if labelsEnabled then
    if l.fontSize ≠ 0 ∧ |l.fontSize - wantLabelSize labelSize| > 0.001 then
      ({ quat := cam, fontSize := wantLabelSize labelSize, visible := true }, true)
    else
      ({ quat := cam, fontSize := l.fontSize, visible := true }, false)
  else
    ({ l with visible := false }, false)

/-- Stand-in for the DOM canvas element. -/
def CanvasElem := Unit

/-- Canvas acquisition (main.js lines 757 and 758): a missing canvas element
    halts initialization with an error. -/
def initCanvas : Option CanvasElem → Except String CanvasElem
  | none => Except.error "Canvas with id=canvas not found"
  | some c => Except.ok c

/-- Scene assembly (main.js lines 552 to 581): build every planet of the
    registry and attach its moons.  The draw u i j is the random start phase
    for moon j of planet i. -/
def assembleScene (u : ℕ → ℕ → ℝ) : List (PlanetData × PlanetState) :=
  planets.enum.map (fun ip => (ip.2, buildPlanetState ip.2 (u ip.1)))

/-- Startup order as in the module body: scene assembly is total and happens
    first; the canvas check (line 758) throws before renderLoop is first
    called (line 936), so in the error case the render loop never runs. -/
def startup (canvas : Option CanvasElem) (u : ℕ → ℕ → ℝ) :
    Except String (List (PlanetData × PlanetState)) :=
  match initCanvas canvas with
  | Except.error e => Except.error e
  | Except.ok _ => Except.ok (assembleScene u)

/-- Identity camera orientation. -/
def camIdentity : Quat := ⟨1, 0, 0, 0⟩

/-- A label as created with the default size 0.6 (main.js line 126). -/
def label0 : LabelState := { quat := camIdentity, fontSize := 0.6, visible := true }

/-- Dust parameters with the default panel values and the swarm enabled
    (main.js lines 99 to 106 and 791 to 798). -/
def dustParamsOn : DustParams :=
  { timeScale := 1, spaceDustEnabled := true, spaceDustSpeed := 0.6,
    spread := 40, near := 2, far := 60 }

/-- The same parameters with the swarm toggle off. -/
def dustParamsOff : DustParams :=
  { dustParamsOn with spaceDustEnabled := false }

/-- A concrete dust instance whose depth is about to cross the near bound. -/
def dustInstanceCross : DustInstance :=
  { posX := 3, posY := -4, posZ := -1.5, scale := 0.1,
    rotAxisX := 1, rotAxisY := 0, rotAxisZ := 0, rotSpeed := 0.9, rotAngle := 0 }

/-- A concrete belt state with one instance sampled at draws of one half. -/
def beltStateSample : BeltState :=
  { instances := [mkBeltInstance beltOptionsUsed 0.5 0.5 0.5 0.5 0.5 0.5 0.5 0.5],
    rotX := 2 * Real.pi / 180, rotY := 0 }

/-- Claim C1: on every frame update the planet self-rotation angle advances
    by exactly speed * dt * t and the orbit anchor rotation by exactly
    speed * dt * 0.2 * t, so the orbital increment is always one fifth of
    the self-rotation increment. -/
theorem planet_rate_law (p : PlanetData) (st : PlanetState) (dt t : ℝ) :
    (planetFrameStep p dt t st).meshY = st.meshY + p.speed * dt * t ∧
    (planetFrameStep p dt t st).orbitY = st.orbitY + p.speed * dt * 0.2 * t ∧
    (planetFrameStep p dt t st).orbitY - st.orbitY =
      (1 / 5) * ((planetFrameStep p dt t st).meshY - st.meshY) := by
  refine ⟨rfl, rfl, ?_⟩
  show st.orbitY + p.speed * dt * 0.2 * t - st.orbitY =
    (1 / 5) * (st.meshY + p.speed * dt * t - st.meshY)
  ring

/-- Claim C2: on every frame update the moon phase advances by exactly
    speed * dt * t, the local position is recomputed from the new phase as
    (sin(phase) * distance, 0, cos(phase) * distance), hence the horizontal
    coordinates always satisfy x squared plus z squared equals distance
    squared, the y coordinate keeps its construction value 0, and the phase
    is never wrapped or reset. -/
theorem moon_step_law (m : MoonData) (st : MoonState) (dt t u : ℝ) :
    (moonStep dt t m st).angle = st.angle + m.speed * dt * t ∧
    (moonStep dt t m st).posX = Real.sin (st.angle + m.speed * dt * t) * m.distance ∧
    (moonStep dt t m st).posZ = Real.cos (st.angle + m.speed * dt * t) * m.distance ∧
    (moonStep dt t m st).posY = st.posY ∧
    (attachMoon m u).posY = 0 ∧
    (moonStep dt t m st).posX ^ 2 + (moonStep dt t m st).posZ ^ 2 = m.distance ^ 2 := by
  refine ⟨rfl, rfl, rfl, rfl, rfl, ?_⟩
  show (Real.sin (st.angle + m.speed * dt * t) * m.distance) ^ 2 +
      (Real.cos (st.angle + m.speed * dt * t) * m.distance) ^ 2 = m.distance ^ 2
  have h := Real.sin_sq_add_cos_sq (st.angle + m.speed * dt * t)
  linear_combination m.distance ^ 2 * h

/-- Claim C3: the belt radius is sampled so that its square is an affine
    function of the uniform draw (the areal-uniform formula, with the sample
    inside the inner and outer band), and it is not the linear blend of inner
    and outer; each instance additionally gets eccentricity jitter, vertical
    jitter, a scale inside the min and max band and a random orientation, and
    the per-frame belt update leaves every placed instance unchanged. -/
theorem belt_sampling_law (o : BeltOptions) (uA uR uE uY uS uRx uRy uRz dt t : ℝ)
    (b : BeltState)
    (hR0 : 0 ≤ uR) (hR1 : uR < 1) (hS0 : 0 ≤ uS) (hS1 : uS < 1)
    (hi : 0 ≤ o.innerRadius) (hio : o.innerRadius ≤ o.outerRadius)
    (hsc : o.minScale ≤ o.maxScale) :
    (beltSampleRadius o uR) ^ 2 =
      uR * (o.outerRadius * o.outerRadius - o.innerRadius * o.innerRadius) +
        o.innerRadius * o.innerRadius ∧
    o.innerRadius ≤ beltSampleRadius o uR ∧
    beltSampleRadius o uR ≤ o.outerRadius ∧
    (mkBeltInstance o uA uR uE uY uS uRx uRy uRz).posX =
      Real.cos (uA * Real.pi * 2) *
        (beltSampleRadius o uR + (uE - 0.5) * (o.outerRadius - o.innerRadius) * 0.03) ∧
    (mkBeltInstance o uA uR uE uY uS uRx uRy uRz).posZ =
      Real.sin (uA * Real.pi * 2) *
        (beltSampleRadius o uR + (uE - 0.5) * (o.outerRadius - o.innerRadius) * 0.03) ∧
    (mkBeltInstance o uA uR uE uY uS uRx uRy uRz).posY = (uY - 0.5) * o.thickness ∧
    (mkBeltInstance o uA uR uE uY uS uRx uRy uRz).scale =
      o.minScale + uS * (o.maxScale - o.minScale) ∧
    o.minScale ≤ (mkBeltInstance o uA uR uE uY uS uRx uRy uRz).scale ∧
    (mkBeltInstance o uA uR uE uY uS uRx uRy uRz).scale ≤ o.maxScale ∧
    (mkBeltInstance o uA uR uE uY uS uRx uRy uRz).rotX = uRx * Real.pi ∧
    beltSampleRadius beltOptionsUsed (1 / 2) ≠
      beltOptionsUsed.innerRadius +
        (1 / 2) * (beltOptionsUsed.outerRadius - beltOptionsUsed.innerRadius) ∧
    (beltFrameStep dt t b).instances = b.instances := by
  have hsq : o.innerRadius * o.innerRadius ≤ o.outerRadius * o.outerRadius := by
    nlinarith
  have harg0 : 0 ≤ uR * (o.outerRadius * o.outerRadius - o.innerRadius * o.innerRadius) +
      o.innerRadius * o.innerRadius := by nlinarith
  refine ⟨Real.sq_sqrt harg0, ?_, ?_, rfl, rfl, rfl, rfl, ?_, ?_, rfl, ?_, rfl⟩
  · calc o.innerRadius = Real.sqrt (o.innerRadius * o.innerRadius) :=
        (Real.sqrt_mul_self hi).symm
      _ ≤ beltSampleRadius o uR := Real.sqrt_le_sqrt (by nlinarith)
  · calc beltSampleRadius o uR ≤ Real.sqrt (o.outerRadius * o.outerRadius) :=
        Real.sqrt_le_sqrt (by nlinarith)
      _ = o.outerRadius := Real.sqrt_mul_self (le_trans hi hio)
  · show o.minScale ≤ o.minScale + uS * (o.maxScale - o.minScale)
    nlinarith
  · show o.minScale + uS * (o.maxScale - o.minScale) ≤ o.maxScale
    nlinarith
  · intro heq
    have hA : (0:ℝ) ≤ (1 / 2) * (33 * 33 - 28 * 28) + 28 * 28 := by norm_num
    have h2 := Real.sq_sqrt hA
    have h3 : beltSampleRadius beltOptionsUsed (1 / 2) =
        Real.sqrt ((1 / 2) * (33 * 33 - 28 * 28) + 28 * 28) := by
      simp only [beltSampleRadius, beltOptionsUsed]
    rw [h3] at heq
    rw [heq] at h2
    simp only [beltOptionsUsed] at h2
    norm_num at h2

/-- Witness for belt_sampling_law at the options used by the program and
    all draws equal to one half. -/
theorem belt_sampling_law_witness :
    beltOptionsUsed.innerRadius ≤ beltSampleRadius beltOptionsUsed (1 / 2) ∧
    beltSampleRadius beltOptionsUsed (1 / 2) ≤ beltOptionsUsed.outerRadius := by
  have h := belt_sampling_law beltOptionsUsed (1 / 2) (1 / 2) (1 / 2) (1 / 2) (1 / 2)
    (1 / 2) (1 / 2) (1 / 2) 1 1 beltStateSample
    (by norm_num) (by norm_num) (by norm_num) (by norm_num)
    (by norm_num [beltOptionsUsed]) (by norm_num [beltOptionsUsed])
    (by norm_num [beltOptionsUsed])
  exact ⟨h.2.1, h.2.2.1⟩

/-- Claim C4: a dust instance whose depth crosses the configured near bound
    during one enabled update step ends the step with depth exactly the far
    bound and with both lateral coordinates freshly randomized from the two
    new draws, inside the spread band. -/
theorem dust_respawn_law (p : DustParams) (dt u1 u2 : ℝ) (i : DustInstance)
    (hen : p.spaceDustEnabled = true) (hs : p.spaceDustSpeed ≠ 0)
    (hcross : i.posZ + p.timeScale * p.spaceDustSpeed * dt > -p.near)
    (hu10 : 0 ≤ u1) (hu11 : u1 ≤ 1) (hu20 : 0 ≤ u2) (hu21 : u2 ≤ 1)
    (hsp : 0 ≤ p.spread) :
    (dustStep p dt u1 u2 i).posZ = -p.far ∧
    (dustStep p dt u1 u2 i).posX = (u1 - 0.5) * p.spread ∧
    (dustStep p dt u1 u2 i).posY = (u2 - 0.5) * p.spread ∧
    -(p.spread / 2) ≤ (dustStep p dt u1 u2 i).posX ∧
    (dustStep p dt u1 u2 i).posX ≤ p.spread / 2 ∧
    -(p.spread / 2) ≤ (dustStep p dt u1 u2 i).posY ∧
    (dustStep p dt u1 u2 i).posY ≤ p.spread / 2 := by
  have hmv : dustMove p dt = p.timeScale * p.spaceDustSpeed * dt := by
    simp [dustMove, hs]
  have hstep : dustStep p dt u1 u2 i =
      { i with posZ := -p.far, posX := (u1 - 0.5) * p.spread,
               posY := (u2 - 0.5) * p.spread,
               rotAngle := i.rotAngle + i.rotSpeed * dt } := by
    simp only [dustStep, hen, if_true, dustInstanceStep, hmv]
    rw [if_pos hcross]
  rw [hstep]
  refine ⟨rfl, rfl, rfl, ?_, ?_, ?_, ?_⟩ <;> · show _ ≤ _; nlinarith

/-- Witness for dust_respawn_law at the default parameters and a concrete
    crossing instance. -/
theorem dust_respawn_law_witness :
    (dustStep dustParamsOn 1 (1 / 2) (1 / 2) dustInstanceCross).posZ = -dustParamsOn.far ∧
    -(dustParamsOn.spread / 2) ≤ (dustStep dustParamsOn 1 (1 / 2) (1 / 2) dustInstanceCross).posX := by
  have h := dust_respawn_law dustParamsOn 1 (1 / 2) (1 / 2) dustInstanceCross rfl
    (by norm_num [dustParamsOn]) (by norm_num [dustParamsOn, dustInstanceCross])
    (by norm_num) (by norm_num) (by norm_num) (by norm_num) (by norm_num [dustParamsOn])
  exact ⟨h.1, h.2.2.2.1⟩

/-- Claim C5 (amended): the dust spin angle advances by rotSpeed * dt exactly
    on the frames where the swarm toggle is enabled; when the toggle is off
    the whole per-instance dust update is skipped and the spin angle does not
    advance. -/
theorem dust_rot_gated (p : DustParams) (dt u1 u2 : ℝ) (i : DustInstance) :
    (dustStep p dt u1 u2 i).rotAngle =
      i.rotAngle + (if p.spaceDustEnabled then i.rotSpeed * dt else 0) := by
  by_cases hen : p.spaceDustEnabled
  · simp only [dustStep, dustInstanceStep, hen, if_true]
    split_ifs <;> rfl
  · simp [dustStep, hen]

/-- Claim C5 counterexample: with the swarm toggle off, the spin angle does
    not advance by rotSpeed * dt in an update step; it does not advance at
    all. -/
theorem dust_rot_disabled_cex :
    (dustStep dustParamsOff 1 (1 / 2) (1 / 2) dustInstanceCross).rotAngle ≠
      dustInstanceCross.rotAngle + dustInstanceCross.rotSpeed * 1 := by
  simp [dustStep, dustParamsOff, dustParamsOn, dustInstanceCross]
  norm_num

/-- Claim C6: the ring rotation advances by the fixed 0.001 increment scaled
    only by the multiplier, independent of the frame delta, while the belt
    rotation advances by 0.02 scaled by both the delta and the multiplier. -/
theorem ring_belt_rate_law (dt t rot : ℝ) (b : BeltState) :
    ringRotStep dt t rot = rot + 0.001 * t ∧
    (∀ dt1 dt2 : ℝ, ringRotStep dt1 t rot = ringRotStep dt2 t rot) ∧
    (beltFrameStep dt t b).rotY = b.rotY + 0.02 * dt * t ∧
    (beltFrameStep dt t b).instances = b.instances :=
  ⟨rfl, fun _ _ => rfl, rfl, rfl⟩

/-- Claim C7 failing input: at the construction state of Earth (axial tilt
    23.5 degrees, orbit and self-rotation still zero) with the camera at the
    identity orientation, the enabled label update does copy the camera
    quaternion into the label local orientation, yet the label world
    orientation is the parent tilt rotation times the camera orientation and
    not the camera orientation, so the label does not face the observer
    exactly. -/
theorem label_billboard_failure :
    (labelStep true 0.6 camIdentity label0).1.quat = camIdentity ∧
    ¬ facesObserverExactly (buildPlanetState earth (fun _ => 0))
        camIdentity camIdentity := by
  constructor
  · simp only [labelStep, wantLabelSize, label0]
    norm_num
  · have hsin : 0 < Real.sin (23.5 * Real.pi / 180 / 2) := by
      apply Real.sin_pos_of_pos_of_lt_pi
      · positivity
      · nlinarith [Real.pi_pos]
    have hpq : planetParentQuat (buildPlanetState earth (fun _ => 0)) =
        ⟨Real.cos (23.5 * Real.pi / 180 / 2), 0, 0,
          Real.sin (23.5 * Real.pi / 180 / 2)⟩ := by
      simp [planetParentQuat, buildPlanetState, earth, qAxisY, qAxisZ, Quat.mul]
    have hw : labelWorldQuat (buildPlanetState earth (fun _ => 0)) camIdentity =
        ⟨Real.cos (23.5 * Real.pi / 180 / 2), 0, 0,
          Real.sin (23.5 * Real.pi / 180 / 2)⟩ := by
      rw [labelWorldQuat, hpq]
      simp [Quat.mul, camIdentity]
    intro hfaces
    rcases hfaces with h | h
    · rw [hw] at h
      have hz := congrArg Quat.z h
      simp only [camIdentity] at hz
      linarith
    · rw [hw] at h
      have hz := congrArg Quat.z h
      simp only [camIdentity, Quat.neg, neg_zero] at hz
      linarith

/-- Claim C7 companion: when labels are enabled, the update copies the whole
    camera quaternion into the label local orientation (all components, not
    only a yaw extraction), a glyph resync is requested only when the stored
    size is truthy and differs from the wanted size by more than 0.001, and
    the resulting world orientation is the parent chain orientation times the
    camera orientation. -/
theorem label_update_law (labelSize : ℝ) (cam : Quat) (l : LabelState)
    (st : PlanetState) :
    (labelStep true labelSize cam l).1.quat = cam ∧
    (labelStep true labelSize cam l).1.visible = true ∧
    ((labelStep true labelSize cam l).2 = true ↔
      l.fontSize ≠ 0 ∧ |l.fontSize - wantLabelSize labelSize| > 0.001) ∧
    labelWorldQuat st cam = (planetParentQuat st).mul cam := by
  by_cases hc : l.fontSize ≠ 0 ∧ |l.fontSize - wantLabelSize labelSize| > 0.001
  · refine ⟨?_, ?_, ?_, rfl⟩ <;> simp [labelStep, hc]
  · refine ⟨?_, ?_, ?_, rfl⟩ <;> simp [labelStep, hc]

/-- Claim C8: the axial tilt rotation is set once at construction to the
    tilt in degrees converted to radians and is never mutated by the frame
    update; after any number of frames only the orbit anchor rotation and the
    self-rotation have accumulated, linearly in the frame count. -/
theorem tilt_immutable_law (p : PlanetData) (u : ℕ → ℝ) (dt t : ℝ) (n : ℕ) :
    ((planetFrameStep p dt t)^[n] (buildPlanetState p u)).tiltZ =
      p.tilt * Real.pi / 180 ∧
    ((planetFrameStep p dt t)^[n] (buildPlanetState p u)).meshY =
      n * (p.speed * dt * t) ∧
    ((planetFrameStep p dt t)^[n] (buildPlanetState p u)).orbitY =
      n * (p.speed * dt * 0.2 * t) := by
  induction n with
  | zero => refine ⟨rfl, ?_, ?_⟩ <;> simp [buildPlanetState]
  | succ k ih =>
      obtain ⟨h1, h2, h3⟩ := ih
      refine ⟨?_, ?_, ?_⟩
      · rw [Function.iterate_succ_apply']
        simpa [planetFrameStep] using h1
      · rw [Function.iterate_succ_apply']
        show ((planetFrameStep p dt t)^[k] (buildPlanetState p u)).meshY +
          p.speed * dt * t = (k + 1 : ℕ) * (p.speed * dt * t)
        rw [h2]
        push_cast
        ring
      · rw [Function.iterate_succ_apply']
        show ((planetFrameStep p dt t)^[k] (buildPlanetState p u)).orbitY +
          p.speed * dt * 0.2 * t = (k + 1 : ℕ) * (p.speed * dt * 0.2 * t)
        rw [h3]
        push_cast
        ring

/-- Claim C9: a missing canvas element makes startup halt with the
    diagnostic error before the render loop can run, while a planet with an
    empty moon list builds without error: the iteration over zero moons is a
    no-op and the rest of the construction is unchanged. -/
theorem startup_canvas_and_empty_moons (u : ℕ → ℕ → ℝ) (p : PlanetData) (v : ℕ → ℝ) :
    startup none u = Except.error "Canvas with id=canvas not found" ∧
    (∀ c : CanvasElem, startup (some c) u = Except.ok (assembleScene u)) ∧
    buildPlanetState { p with moons := [] } v =
      { orbitY := 0, tiltZ := p.tilt * Real.pi / 180, meshY := 0, moons := [] } :=
  ⟨rfl, fun _ => rfl, rfl⟩

/-- Claim C10: the dust spin advance does not depend on the time-scale
    value: two updates from the same state with the same delta and the same
    draws but different time-scale values advance the spin angle
    identically, namely by rotSpeed * dt whenever the swarm is enabled; and
    at time-scale zero the orbital motion, the self-rotation, the ring and
    belt rotation and the dust approach are all frozen. -/
theorem dust_rot_timescale_free (p : DustParams) (t1 t2 dt u1 u2 : ℝ)
    (i : DustInstance) (pd : PlanetData) (st : PlanetState) (rot : ℝ) (b : BeltState) :
    (dustStep { p with timeScale := t1 } dt u1 u2 i).rotAngle =
      (dustStep { p with timeScale := t2 } dt u1 u2 i).rotAngle ∧
    (p.spaceDustEnabled = true →
      (dustStep { p with timeScale := t1 } dt u1 u2 i).rotAngle =
        i.rotAngle + i.rotSpeed * dt) ∧
    (planetFrameStep pd dt 0 st).orbitY = st.orbitY ∧
    (planetFrameStep pd dt 0 st).meshY = st.meshY ∧
    ringRotStep dt 0 rot = rot ∧
    (beltFrameStep dt 0 b).rotY = b.rotY ∧
    dustMove { p with timeScale := 0 } dt = 0 := by
  refine ⟨?_, ?_, ?_, ?_, ?_, ?_, ?_⟩
  · simp only [dustStep, dustInstanceStep]
    split_ifs <;> rfl
  · intro hen
    simp only [dustStep, dustInstanceStep, hen, if_true]
    split_ifs <;> rfl
  · simp [planetFrameStep]
  · simp [planetFrameStep]
  · simp [ringRotStep]
  · simp [beltFrameStep]
  · simp [dustMove]

/-- Witness for dust_rot_timescale_free at the default enabled parameters
    with time-scale values 5 and 0. -/
theorem dust_rot_timescale_free_witness :
    (dustStep { dustParamsOn with timeScale := 5 } 1 (1 / 2) (1 / 2)
        dustInstanceCross).rotAngle =
      dustInstanceCross.rotAngle + dustInstanceCross.rotSpeed * 1 :=
  (dust_rot_timescale_free dustParamsOn 5 0 1 (1 / 2) (1 / 2) dustInstanceCross
    mercury (buildPlanetState mercury (fun _ => 0)) 0 beltStateSample).2.1 rfl

end

end SolarSim
